import Mathlib

/-!
Verification of the stf-executor enclave signer and its mocks.

Shallow embedding of `core-primitives/stf-executor/src/enclave_signer.rs` and
`core-primitives/stf-executor/src/mocks.rs`. Machine integers are modelled as
`Nat` with explicit reduction modulo the type width where the Rust code can
overflow. Collaborator traits (attestation ocall, state observer, shielding-key
repository, top-pool author, Stf system-pallet interface, trusted-call signing)
are modelled at their interface boundary as fields of an environment record.
-/

namespace StfExecutor

/-- The modulus of the nonce type `Index` (`u32` in `itp_types`); the spec
speaks of pending counts up to `u32::MAX`. -/
def indexMod : Nat := 2 ^ 32

/-- Largest value representable in `Index`; `Index::try_from(pending_tx_count)`
succeeds exactly when the count is at most this. -/
def indexMax : Nat := indexMod - 1

/-- Error type of the stf-executor crate. Modelled from the spec: the spec
lists the kinds KeyDerivationFailure, AttestationUnavailable, StateReadFailure,
and the code wraps further failures in `Error::Other` with a payload
(`enclave_signer.rs` lines 136 and 166). -/
inductive Error where
  | keyDerivationFailure : Error
  | attestationUnavailable : Error
  | stateReadFailure : Error
  | other : String → Error
deriving DecidableEq, Repr

/-- Message of the `Error::Other` produced at `enclave_signer.rs:166` when the
observed state has no vault configured. -/
def vaultUndefinedMsg : String := "shard vault undefined"

/-- Message of the `Error::Other` produced at `enclave_signer.rs:136` when
`Index::try_from(pending_tx_count)` fails (the display of `TryFromIntError`). -/
def tryFromIntErrorMsg : String := "out of range integral type conversion attempted"

/-- An ed25519 key pair, identified by its seed (`sp_core::ed25519::Pair`).
Modelled from the spec: derivation of the pair from a seed is pure. -/
structure Ed25519Pair where
  seed : Nat
deriving DecidableEq, Repr

/-- Public identity of a key pair (`Pair::public()`), a pure function of the
pair. Modelled from the spec: the same key always yields the same identity. -/
def Ed25519Pair.public (p : Ed25519Pair) : Nat := p.seed

/-- A signed trusted call (`TCS`). Modelled from the spec: a versioned
serializable artifact combining the original call payload, the adjusted nonce,
the enclave measurement and the shard identifier, all covered by a signature
from the given key. -/
structure SignedCall where
  call : Nat
  nonce : Nat
  mrenclave : Nat
  shard : Nat
  signerPublic : Nat
deriving DecidableEq, Repr

/-- The trusted call signing operation `TC::sign` used at
`enclave_signer.rs:139`. Modelled from the spec: produces the signature over
(call, adjusted nonce, enclave measurement, shard) using the given key. -/
def signTrustedCall (call : Nat) (key : Ed25519Pair) (nonce : Nat)
    (mrenclave : Nat) (shard : Nat) : SignedCall :=
  { call := call, nonce := nonce, mrenclave := mrenclave, shard := shard,
    signerPublic := key.public }

/-- Collaborator environment of a `StfEnclaveSigner` instance, one field per
interface call the signer makes. Modelled from the spec at the collaborator
boundary (spec section 6): the attestation ocall, the shielding-key repository,
the ed25519 derivation of the shielding key, the per-shard state snapshot
observer, the Stf account-nonce and vault reads on a snapshot, and the
top-pool pending-call query (shard and author scoped). States are opaque
(`Nat`); accounts and measurements are opaque identities (`Nat`). -/
structure Env where
  mrenclaveOfSelf : Except Error Nat
  retrieveKey : Except Error Nat
  deriveEd25519 : Nat → Except Error Ed25519Pair
  observeState : Nat → Except Error Nat
  getAccountNonce : Nat → Nat → Nat
  getVault : Nat → Option Nat
  pendingCalls : Nat → Nat → List Nat

/-- Translation of `get_enclave_call_signing_key` (`enclave_signer.rs:94`): retrieve the
shielding key from the repository and derive the ed25519 signing pair. -/
def get_enclave_call_signing_key (env : Env) : Except Error Ed25519Pair :=
  match env.retrieveKey with
  | Except.error e => Except.error e
  | Except.ok shielding_key => env.deriveEd25519 shielding_key

/-- Translation of `get_enclave_account` (`enclave_signer.rs:116`): the public identity of the
derived signing key. -/
def get_enclave_account (env : Env) : Except Error Nat :=
  match get_enclave_call_signing_key env with
  | Except.error e => Except.error e
  | Except.ok enclave_call_signing_key => Except.ok enclave_call_signing_key.public

/-- Translation of `get_enclave_account_nonce` (`enclave_signer.rs:85`): observe the shard
state and read the enclave account nonce on the snapshot. -/
def get_enclave_account_nonce (env : Env) (shard : Nat) : Except Error Nat :=
  match get_enclave_account env with
  | Except.error e => Except.error e
  | Except.ok enclave_account =>
    match env.observeState shard with
    | Except.error e => Except.error e
    | Except.ok state => Except.ok (env.getAccountNonce state enclave_account)

/-- Translation of `sign_call_with_self` (`enclave_signer.rs:121`): fetch the measurement,
the account and the signing key, read the committed nonce for the shard, count
the pending trusted calls for the enclave account in this shard, convert the
count to `Index` with `Index::try_from` (checked), add it to the committed
nonce with the plain `+` of `u32` (wrapping, modelled as reduction modulo
2^32), and sign. -/
def sign_call_with_self (env : Env) (trusted_call : Nat) (shard : Nat) :
    Except Error SignedCall :=
  match env.mrenclaveOfSelf with
  | Except.error e => Except.error e
  | Except.ok mr_enclave =>
    match get_enclave_account env with
    | Except.error e => Except.error e
    | Except.ok enclave_account =>
      match get_enclave_call_signing_key env with
      | Except.error e => Except.error e
      | Except.ok enclave_call_signing_key =>
        match get_enclave_account_nonce env shard with
        | Except.error e => Except.error e
        | Except.ok current_nonce =>
          let pending_tx_count := (env.pendingCalls shard enclave_account).length
          if pending_tx_count ≤ indexMax then
            Except.ok (signTrustedCall trusted_call enclave_call_signing_key
              ((current_nonce + pending_tx_count) % indexMod) mr_enclave shard)
          else
            Except.error (Error.other tryFromIntErrorMsg)

/-- Translation of `get_shard_vault` (`enclave_signer.rs:163`): observe the shard state, read
the vault entry, and turn an absent entry into `Error::Other` with the
"shard vault undefined" message. -/
def get_shard_vault (env : Env) (shard : Nat) : Except Error Nat :=
  match env.observeState shard with
  | Except.error e => Except.error e
  | Except.ok state =>
    match env.getVault state with
    | some vault => Except.ok vault
    | none => Except.error (Error.other vaultUndefinedMsg)

/-! Read-threading model of the signer, for the frame property. Each
collaborator call is a read: it returns a value together with the (unchanged)
collaborator environment, per the collaborator contracts of spec section 6
(`observe_state` runs the read closure against a point-in-time snapshot,
`get_pending_trusted_calls_for` enumerates the pool, `retrieve_key` and the
attestation ocall are queries). The translation of `sign_call_with_self`
threads the environment through every collaborator call it makes, so that what
the environment looks like after the operation is observable. -/

/-- Read of `get_mrenclave_of_self` on the ocall api: a query, returns the
environment unchanged. Modelled from the spec: attestation is a synchronous
read-only collaborator. -/
def get_mrenclave_of_self_rw (env : Env) : Except Error Nat × Env :=
  (env.mrenclaveOfSelf, env)

/-- Read of `retrieve_key` on the shielding-key repository: a query, returns
the environment unchanged. Modelled from the spec: key retrieval and
derivation are pure and read-only. -/
def retrieve_key_rw (env : Env) : Except Error Nat × Env :=
  (env.retrieveKey, env)

/-- Read of `observe_state` on the state observer: runs against a snapshot,
returns the environment unchanged. Modelled from the spec: a consistent
point-in-time read of committed shard state. -/
def observe_state_rw (env : Env) (shard : Nat) : Except Error Nat × Env :=
  (env.observeState shard, env)

/-- Read of `get_pending_trusted_calls_for` on the top-pool author: an
enumeration of pool content, returns the environment unchanged. Modelled from
the spec: the pool query is used only for its count. -/
def get_pending_trusted_calls_for_rw (env : Env) (shard : Nat) (account : Nat) :
    List Nat × Env :=
  (env.pendingCalls shard account, env)

/-- Read-threading translation of `get_enclave_call_signing_key`. -/
def get_enclave_call_signing_key_rw (env : Env) : Except Error Ed25519Pair × Env :=
  match retrieve_key_rw env with
  | (Except.error e, env1) => (Except.error e, env1)
  | (Except.ok shielding_key, env1) => (env1.deriveEd25519 shielding_key, env1)

/-- Read-threading translation of `get_enclave_account`. -/
def get_enclave_account_rw (env : Env) : Except Error Nat × Env :=
  match get_enclave_call_signing_key_rw env with
  | (Except.error e, env1) => (Except.error e, env1)
  | (Except.ok key, env1) => (Except.ok key.public, env1)

/-- Read-threading translation of `get_enclave_account_nonce`. -/
def get_enclave_account_nonce_rw (env : Env) (shard : Nat) : Except Error Nat × Env :=
  match get_enclave_account_rw env with
  | (Except.error e, env1) => (Except.error e, env1)
  | (Except.ok enclave_account, env1) =>
    match observe_state_rw env1 shard with
    | (Except.error e, env2) => (Except.error e, env2)
    | (Except.ok state, env2) => (Except.ok (env2.getAccountNonce state enclave_account), env2)

/-- Read-threading translation of `sign_call_with_self`
(`enclave_signer.rs:121`): the same sequence of collaborator calls as
`sign_call_with_self`, each threading the environment. -/
def sign_call_with_self_rw (env : Env) (trusted_call : Nat) (shard : Nat) :
    Except Error SignedCall × Env :=
  match get_mrenclave_of_self_rw env with
  | (Except.error e, env1) => (Except.error e, env1)
  | (Except.ok mr_enclave, env1) =>
    match get_enclave_account_rw env1 with
    | (Except.error e, env2) => (Except.error e, env2)
    | (Except.ok enclave_account, env2) =>
      match get_enclave_call_signing_key_rw env2 with
      | (Except.error e, env3) => (Except.error e, env3)
      | (Except.ok enclave_call_signing_key, env3) =>
        match get_enclave_account_nonce_rw env3 shard with
        | (Except.error e, env4) => (Except.error e, env4)
        | (Except.ok current_nonce, env4) =>
          match get_pending_trusted_calls_for_rw env4 shard enclave_account with
          | (pending, env5) =>
            let pending_tx_count := pending.length
            if pending_tx_count ≤ indexMax then
              (Except.ok (signTrustedCall trusted_call enclave_call_signing_key
                ((current_nonce + pending_tx_count) % indexMod) mr_enclave shard), env5)
            else
              (Except.error (Error.other tryFromIntErrorMsg), env5)

/-! Mocks (`mocks.rs`). The mock executor holds one state value behind a
reader/writer lock; the embedding passes the stored state explicitly and
returns the new stored state. States, headers, shards, call payloads and
hashes are opaque (`Nat`). -/

/-- Translation of `TrustedOperationOrHash` (`itp_stf_primitives`): either a full trusted
operation or only its hash. Modelled from the spec domain:
`TrustedOperationOrHash::from_top(c)` keeps the full operation. -/
inductive TrustedOperationOrHash where
  | top : Nat → TrustedOperationOrHash
  | hash : Nat → TrustedOperationOrHash
deriving DecidableEq, Repr

/-- Translation of `TrustedOperationOrHash::from_top` (`mocks.rs:92`). -/
def TrustedOperationOrHash.from_top (c : Nat) : TrustedOperationOrHash :=
  TrustedOperationOrHash.top c

/-- Translation of `TrustedOperation::hash` (`mocks.rs:91`). Modelled from the spec: the
content hash of the operation, a pure function of the operation; modelled as
an injective encoding. -/
def top_hash (c : Nat) : Nat := c

/-- An executed-operation record. Modelled from the spec: the pairing of an
operation's content hash with its execution outcome and its emitted
side-effect log (plus the operation itself, kept by the mock via
`from_top`). -/
structure ExecutedOperation where
  isSuccess : Bool
  operationHash : Nat
  trustedOperationOrHash : TrustedOperationOrHash
  extrinsicCallBacks : List Nat
deriving DecidableEq, Repr

/-- Translation of `ExecutedOperation::success` (`mocks.rs:93`). Modelled from the spec: a
success record with the given content hash and side-effect log. -/
def ExecutedOperation.success (operationHash : Nat)
    (topOrHash : TrustedOperationOrHash) (callBacks : List Nat) : ExecutedOperation :=
  { isSuccess := true, operationHash := operationHash,
    trustedOperationOrHash := topOrHash, extrinsicCallBacks := callBacks }

/-- The default `H256` used as the placeholder pre-execution state hash at
`mocks.rs:99` (`H256::default()`, the all-zero hash). -/
def h256Default : Nat := 0

/-- Translation of `BatchExecutionResult` of the stf-executor crate, as populated by the mock
(`mocks.rs:97`). -/
structure BatchExecutionResult where
  executedOperations : List ExecutedOperation
  stateHashBeforeExecution : Nat
  stateAfterExecution : Nat
deriving DecidableEq, Repr

/-- Translation of `StfExecutorMock::get_state` (`mocks.rs:57`): read the stored state under
the shared lock and return a clone. -/
def StfExecutorMock.get_state (stored_state : Nat) : Nat := stored_state

/-- Translation of `StfExecutorMock::propose_state_update` (`mocks.rs:70`): under the writer
lock, apply the caller-supplied transformation to a clone of the stored state,
replace the stored state with the result, synthesize one success record per
input call with its content hash and an empty side-effect log, and return the
placeholder pre-execution hash, the per-call records and the post state.
Returns the batch result together with the new stored state; the header, the
shard and the max duration parameters are accepted and ignored, as in the
source. -/
def StfExecutorMock.propose_state_update (stored_state : Nat)
    (trusted_calls : List Nat) (header : Nat) (shard : Nat)
    (max_exec_duration : Nat) (prepare_state_function : Nat → Nat) :
    Except Error BatchExecutionResult × Nat :=
  let _ := header
  let _ := shard
  let _ := max_exec_duration
  let updated_state := prepare_state_function stored_state
  let executed_operations : List ExecutedOperation := trusted_calls.map fun c =>
    ExecutedOperation.success (top_hash c) (TrustedOperationOrHash.from_top c) []
  (Except.ok
    { executedOperations := executed_operations,
      stateHashBeforeExecution := h256Default,
      stateAfterExecution := updated_state },
    updated_state)

/-- The hardcoded test seed of the enclave signer mock (`mocks.rs:114`), the
byte string `42345678901234567890123456789012` in ASCII. -/
def testSeedBytes : List Nat :=
  [52, 50, 51, 52, 53, 54, 55, 56, 57, 48,
   49, 50, 51, 52, 53, 54, 55, 56, 57, 48,
   49, 50, 51, 52, 53, 54, 55, 56, 57, 48, 49, 50]

/-- Value of a byte string as a base-256 number, most significant byte
first; used to identify a 32-byte seed with one `Nat`. -/
def bytesToNat (bytes : List Nat) : Nat :=
  bytes.foldl (fun acc b => acc * 256 + b % 256) 0

/-- Translation of `ed25519::Pair::from_seed` (`mocks.rs:116`). Modelled from the spec: pure
derivation of the pair from a 32-byte seed. -/
def ed25519PairFromSeed (seed : List Nat) : Ed25519Pair :=
  { seed := bytesToNat seed }

/-- Translation of `StfEnclaveSignerMock` (`mocks.rs:106`): a measurement and an ed25519
signer. -/
structure StfEnclaveSignerMock where
  mr_enclave : Nat
  signer : Ed25519Pair
deriving DecidableEq, Repr

/-- Translation of `StfEnclaveSignerMock::new` (`mocks.rs:112`): keep the given measurement
and derive the signer from the hardcoded test seed. -/
def StfEnclaveSignerMock.new (mr_enclave : Nat) : StfEnclaveSignerMock :=
  { mr_enclave := mr_enclave, signer := ed25519PairFromSeed testSeedBytes }

/-- Translation of `StfEnclaveSignerMock::default` (`mocks.rs:120`): `new` with the all-zero
measurement. -/
def StfEnclaveSignerMock.default : StfEnclaveSignerMock :=
  StfEnclaveSignerMock.new 0

/-- Translation of `StfEnclaveSignerMock::get_enclave_account` (`mocks.rs:127`). -/
def StfEnclaveSignerMock.get_enclave_account (m : StfEnclaveSignerMock) :
    Except Error Nat :=
  Except.ok m.signer.public

/-- Translation of `StfEnclaveSignerMock::sign_call_with_self` (`mocks.rs:131`): sign with
the stored key, the constant nonce 1, the stored measurement and the given
shard. -/
def StfEnclaveSignerMock.sign_call_with_self (m : StfEnclaveSignerMock)
    (trusted_call : Nat) (shard : Nat) : Except Error SignedCall :=
  Except.ok (signTrustedCall trusted_call m.signer 1 m.mr_enclave shard)

/-! Theorems. -/

/-- Numeric value of the `Index` modulus. -/
theorem indexMod_eq : indexMod = 4294967296 := by norm_num [indexMod]

/-- Evaluation of the signing-key derivation when the repository and the
derivation succeed. -/
theorem get_enclave_call_signing_key_eval (env : Env) (sk : Nat) (kp : Ed25519Pair)
    (hkey : env.retrieveKey = Except.ok sk)
    (hder : env.deriveEd25519 sk = Except.ok kp) :
    get_enclave_call_signing_key env = Except.ok kp := by
  unfold get_enclave_call_signing_key
  simp only [hkey]
  exact hder

/-- Evaluation of `get_enclave_account` when key derivation succeeds. -/
theorem get_enclave_account_eval (env : Env) (sk : Nat) (kp : Ed25519Pair)
    (hkey : env.retrieveKey = Except.ok sk)
    (hder : env.deriveEd25519 sk = Except.ok kp) :
    get_enclave_account env = Except.ok kp.public := by
  unfold get_enclave_account
  simp only [get_enclave_call_signing_key_eval env sk kp hkey hder]

/-- Evaluation of `get_enclave_account_nonce` when its collaborator calls
succeed. -/
theorem get_enclave_account_nonce_eval (env : Env) (shard sk : Nat)
    (kp : Ed25519Pair) (st : Nat)
    (hkey : env.retrieveKey = Except.ok sk)
    (hder : env.deriveEd25519 sk = Except.ok kp)
    (hst : env.observeState shard = Except.ok st) :
    get_enclave_account_nonce env shard = Except.ok (env.getAccountNonce st kp.public) := by
  unfold get_enclave_account_nonce
  simp only [get_enclave_account_eval env sk kp hkey hder, hst]

/-- The full behavior of `sign_call_with_self` when all collaborator calls
succeed: the pending-count conversion to `Index` is checked, the addition to
the committed nonce wraps modulo 2^32. -/
theorem sign_call_with_self_eval (env : Env) (trusted_call shard mr sk : Nat)
    (kp : Ed25519Pair) (st n : Nat)
    (hmr : env.mrenclaveOfSelf = Except.ok mr)
    (hkey : env.retrieveKey = Except.ok sk)
    (hder : env.deriveEd25519 sk = Except.ok kp)
    (hst : env.observeState shard = Except.ok st)
    (hn : env.getAccountNonce st kp.public = n) :
    sign_call_with_self env trusted_call shard =
      if (env.pendingCalls shard kp.public).length ≤ indexMax then
        Except.ok (signTrustedCall trusted_call kp
          ((n + (env.pendingCalls shard kp.public).length) % indexMod) mr shard)
      else
        Except.error (Error.other tryFromIntErrorMsg) := by
  unfold sign_call_with_self
  simp only [hmr, get_enclave_account_eval env sk kp hkey hder,
    get_enclave_call_signing_key_eval env sk kp hkey hder,
    get_enclave_account_nonce_eval env shard sk kp st hkey hder hst, hn]

/-- Collaborator environment realizing the C1 scenario: all collaborator
calls succeed, the committed nonce of the enclave account is `u32::MAX`
(4294967295) and one self-issued call is pending. -/
def envC1 : Env :=
  { mrenclaveOfSelf := Except.ok 7
    retrieveKey := Except.ok 0
    deriveEd25519 := fun _ => Except.ok { seed := 55 }
    observeState := fun _ => Except.ok 0
    getAccountNonce := fun _ _ => 4294967295
    getVault := fun _ => none
    pendingCalls := fun _ _ => [99] }

/-- C1 counterexample: with committed nonce 4294967295 and pending count 1 the
sum 4294967296 overflows the `Index` domain, yet `sign_call_with_self`
returns `Ok` and signs with the silently wrapped nonce 0 instead of failing
with an overflow error. Only the `usize` to `Index` conversion of the pending
count at `enclave_signer.rs:136` is checked; the addition at line 137 is the
plain wrapping `+`. -/
theorem C1_counterexample :
    envC1.getAccountNonce 0 55 = 4294967295 ∧
    (envC1.pendingCalls 0 55).length = 1 ∧
    indexMod ≤ envC1.getAccountNonce 0 55 + (envC1.pendingCalls 0 55).length ∧
    sign_call_with_self envC1 0 0 =
      Except.ok { call := 0, nonce := 0, mrenclave := 7, shard := 0, signerPublic := 55 } := by
  refine ⟨rfl, rfl, by decide, rfl⟩

/-- C1 amended: `sign_call_with_self` detects, and fails with a conversion
error for, a pending count that is not representable in the nonce domain
(greater than 4294967295); but the addition of committed nonce and a
representable pending count is unchecked and wraps modulo 2^32, so on
overflow of the sum the call is signed with a silently wrapped nonce. -/
theorem C1_amended_only_conversion_checked (env : Env) (trusted_call shard mr sk : Nat)
    (kp : Ed25519Pair) (st n : Nat)
    (hmr : env.mrenclaveOfSelf = Except.ok mr)
    (hkey : env.retrieveKey = Except.ok sk)
    (hder : env.deriveEd25519 sk = Except.ok kp)
    (hst : env.observeState shard = Except.ok st)
    (hn : env.getAccountNonce st kp.public = n) :
    sign_call_with_self env trusted_call shard =
      if (env.pendingCalls shard kp.public).length ≤ indexMax then
        Except.ok (signTrustedCall trusted_call kp
          ((n + (env.pendingCalls shard kp.public).length) % indexMod) mr shard)
      else
        Except.error (Error.other tryFromIntErrorMsg) :=
  sign_call_with_self_eval env trusted_call shard mr sk kp st n hmr hkey hder hst hn

/-- Witness for the amended C1 at the concrete overflow environment: the sum
4294967295 + 1 wraps to nonce 0. -/
theorem C1_amended_witness :
    sign_call_with_self envC1 1 0 =
      Except.ok { call := 1, nonce := 0, mrenclave := 7, shard := 0, signerPublic := 55 } := by
  have h := C1_amended_only_conversion_checked envC1 1 0 7 0 { seed := 55 } 0 4294967295
    rfl rfl rfl rfl rfl
  exact h

/-- C2: when all collaborator calls succeed, the committed nonce is `n`, the
pending count for the enclave account in this shard is `p`, and `n + p` does
not overflow the nonce domain, `sign_call_with_self` signs with adjusted nonce
exactly `n + p`, binding the call, the measurement and the shard. -/
theorem C2_sign_call_with_self_exact_nonce (env : Env) (trusted_call shard mr sk : Nat)
    (kp : Ed25519Pair) (st n p : Nat)
    (hmr : env.mrenclaveOfSelf = Except.ok mr)
    (hkey : env.retrieveKey = Except.ok sk)
    (hder : env.deriveEd25519 sk = Except.ok kp)
    (hst : env.observeState shard = Except.ok st)
    (hn : env.getAccountNonce st kp.public = n)
    (hp : (env.pendingCalls shard kp.public).length = p)
    (hnof : n + p < indexMod) :
    sign_call_with_self env trusted_call shard =
      Except.ok (signTrustedCall trusted_call kp (n + p) mr shard) := by
  have hple : p ≤ indexMax := by
    have h1 : indexMax = indexMod - 1 := rfl
    rw [indexMod_eq] at hnof
    rw [h1, indexMod_eq]
    omega
  rw [sign_call_with_self_eval env trusted_call shard mr sk kp st n hmr hkey hder hst hn,
    hp, if_pos hple, Nat.mod_eq_of_lt hnof]

/-- Collaborator environment for the concrete C2 scenario: committed nonce 5,
two pending self-issued calls. -/
def envC2 : Env :=
  { mrenclaveOfSelf := Except.ok 11
    retrieveKey := Except.ok 3
    deriveEd25519 := fun k => Except.ok { seed := k + 70 }
    observeState := fun _ => Except.ok 0
    getAccountNonce := fun _ _ => 5
    getVault := fun _ => none
    pendingCalls := fun _ _ => [21, 22] }

/-- Witness for C2 at committed nonce 5 and pending count 2: the adjusted
nonce is 7 and the signed artifact binds the call, the measurement, the shard
and the derived public identity. -/
theorem C2_witness :
    sign_call_with_self envC2 9 4 =
      Except.ok { call := 9, nonce := 7, mrenclave := 11, shard := 4, signerPublic := 73 } := by
  have h := C2_sign_call_with_self_exact_nonce envC2 9 4 11 3 { seed := 73 } 0 5 2
    rfl rfl rfl rfl rfl rfl (by rw [indexMod_eq]; omega)
  exact h

/-- C3: when the shard state is readable, `get_shard_vault` returns exactly
the configured vault account if one is configured, and otherwise fails with
the dedicated "shard vault undefined" error, which is distinct from the
state-read failure. -/
theorem C3_get_shard_vault_exact_or_vault_undefined (env : Env) (shard st : Nat)
    (hst : env.observeState shard = Except.ok st) :
    get_shard_vault env shard =
      (match env.getVault st with
       | some vault => Except.ok vault
       | none => Except.error (Error.other vaultUndefinedMsg)) ∧
    Error.other vaultUndefinedMsg ≠ Error.stateReadFailure := by
  constructor
  · unfold get_shard_vault
    simp only [hst]
  · intro h
    exact Error.noConfusion h

/-- Environment of a shard whose committed state has the vault account 42
configured. -/
def envVaultSome : Env :=
  { mrenclaveOfSelf := Except.ok 0
    retrieveKey := Except.ok 0
    deriveEd25519 := fun _ => Except.ok { seed := 0 }
    observeState := fun _ => Except.ok 6
    getAccountNonce := fun _ _ => 0
    getVault := fun _ => some 42
    pendingCalls := fun _ _ => [] }

/-- Environment of a shard whose committed state has no vault configured. -/
def envVaultNone : Env :=
  { mrenclaveOfSelf := Except.ok 0
    retrieveKey := Except.ok 0
    deriveEd25519 := fun _ => Except.ok { seed := 0 }
    observeState := fun _ => Except.ok 6
    getAccountNonce := fun _ _ => 0
    getVault := fun _ => none
    pendingCalls := fun _ _ => [] }

/-- Witness for C3 on both sides: a configured vault is returned exactly, an
absent vault yields the "shard vault undefined" error and not the state-read
failure. -/
theorem C3_witness :
    get_shard_vault envVaultSome 0 = Except.ok 42 ∧
    get_shard_vault envVaultNone 0 = Except.error (Error.other vaultUndefinedMsg) ∧
    get_shard_vault envVaultNone 0 ≠ Except.error Error.stateReadFailure := by
  have hsome := (C3_get_shard_vault_exact_or_vault_undefined envVaultSome 0 6 rfl).1
  have hnone := (C3_get_shard_vault_exact_or_vault_undefined envVaultNone 0 6 rfl).1
  refine ⟨hsome, hnone, ?_⟩
  rw [hnone]
  intro h
  exact Error.noConfusion (Except.error.inj h)

/-- Congruence of `get_enclave_account` in the key-repository fields: the
account depends only on the retrieved master secret and the derivation. -/
theorem get_enclave_account_congr (env1 env2 : Env)
    (hkey : env1.retrieveKey = env2.retrieveKey)
    (hder : env1.deriveEd25519 = env2.deriveEd25519) :
    get_enclave_account env1 = get_enclave_account env2 := by
  unfold get_enclave_account get_enclave_call_signing_key
  rw [hkey, hder]

/-- C4: `get_enclave_account` is deterministic: two calls against key
repositories holding the same master secret and the same derivation return
the same account identifier, whatever the other collaborators do. -/
theorem C4_get_enclave_account_deterministic (env1 env2 : Env)
    (hkey : env1.retrieveKey = env2.retrieveKey)
    (hder : env1.deriveEd25519 = env2.deriveEd25519) :
    get_enclave_account env1 = get_enclave_account env2 :=
  get_enclave_account_congr env1 env2 hkey hder

/-- Environment with master secret 8; the remaining collaborators differ from
`envKeyB` in every field. -/
def envKeyA : Env :=
  { mrenclaveOfSelf := Except.ok 1
    retrieveKey := Except.ok 8
    deriveEd25519 := fun k => Except.ok { seed := k * 2 }
    observeState := fun s => Except.ok s
    getAccountNonce := fun _ _ => 0
    getVault := fun _ => none
    pendingCalls := fun _ _ => [] }

/-- Environment with the same master secret and derivation as `envKeyA` but
different attestation, state, vault and pool collaborators. -/
def envKeyB : Env :=
  { mrenclaveOfSelf := Except.ok 2
    retrieveKey := Except.ok 8
    deriveEd25519 := fun k => Except.ok { seed := k * 2 }
    observeState := fun _ => Except.error Error.stateReadFailure
    getAccountNonce := fun _ _ => 9
    getVault := fun _ => some 3
    pendingCalls := fun _ _ => [1] }

/-- Witness for C4: the two environments share only the key repository and
both return the account 16. -/
theorem C4_witness :
    get_enclave_account envKeyA = get_enclave_account envKeyB ∧
    get_enclave_account envKeyA = Except.ok 16 :=
  ⟨C4_get_enclave_account_deterministic envKeyA envKeyB rfl rfl, rfl⟩

/-- C5: the output of `sign_call_with_self` for a shard depends only on that
shard's observed state and that shard's pending pool entries (besides the
shard-independent attestation and key collaborators): two environments that
agree on the given shard's snapshot and pool — but may differ arbitrarily on
every other shard — produce the same signed output. -/
theorem C5_sign_call_with_self_shard_isolation (env1 env2 : Env)
    (trusted_call shard : Nat)
    (hmr : env1.mrenclaveOfSelf = env2.mrenclaveOfSelf)
    (hkey : env1.retrieveKey = env2.retrieveKey)
    (hder : env1.deriveEd25519 = env2.deriveEd25519)
    (hnonce : env1.getAccountNonce = env2.getAccountNonce)
    (hst : env1.observeState shard = env2.observeState shard)
    (hpool : env1.pendingCalls shard = env2.pendingCalls shard) :
    sign_call_with_self env1 trusted_call shard = sign_call_with_self env2 trusted_call shard := by
  have hacct : get_enclave_account env1 = get_enclave_account env2 :=
    get_enclave_account_congr env1 env2 hkey hder
  have hkp : get_enclave_call_signing_key env1 = get_enclave_call_signing_key env2 := by
    unfold get_enclave_call_signing_key
    rw [hkey, hder]
  have hnon : get_enclave_account_nonce env1 shard = get_enclave_account_nonce env2 shard := by
    unfold get_enclave_account_nonce
    rw [hacct]
    simp only [hst, hnonce]
  unfold sign_call_with_self
  rw [hmr, hacct, hkp, hnon]
  simp only [hpool]

/-- Environment whose shard 0 has nonce 5 and one pending call, and whose
shard 1 has nonce 6 and two pending calls. -/
def envShardA : Env :=
  { mrenclaveOfSelf := Except.ok 13
    retrieveKey := Except.ok 1
    deriveEd25519 := fun k => Except.ok { seed := k + 30 }
    observeState := fun s => Except.ok s
    getAccountNonce := fun st _ => st + 5
    getVault := fun _ => none
    pendingCalls := fun s _ => if s = 0 then [4] else [7, 8] }

/-- Environment agreeing with `envShardA` on shard 0 but with different
committed state and pool content for shard 1. -/
def envShardB : Env :=
  { mrenclaveOfSelf := Except.ok 13
    retrieveKey := Except.ok 1
    deriveEd25519 := fun k => Except.ok { seed := k + 30 }
    observeState := fun s => if s = 0 then Except.ok 0 else Except.ok 90
    getAccountNonce := fun st _ => st + 5
    getVault := fun _ => none
    pendingCalls := fun s _ => if s = 0 then [4] else [] }

/-- Witness for C5: the two environments differ on shard 1 in both state and
pool, yet signing for shard 0 gives the same output, with nonce 5 + 1 = 6. -/
theorem C5_witness :
    sign_call_with_self envShardA 2 0 = sign_call_with_self envShardB 2 0 ∧
    sign_call_with_self envShardA 2 0 =
      Except.ok { call := 2, nonce := 6, mrenclave := 13, shard := 0, signerPublic := 31 } := by
  refine ⟨C5_sign_call_with_self_shard_isolation envShardA envShardB 2 0 rfl rfl rfl rfl rfl rfl, ?_⟩
  rfl

/-- The read-threading signing-key retrieval leaves the environment unchanged
and returns the same value as the plain one. -/
theorem get_enclave_call_signing_key_rw_eq (env : Env) :
    get_enclave_call_signing_key_rw env = (get_enclave_call_signing_key env, env) := by
  unfold get_enclave_call_signing_key_rw retrieve_key_rw get_enclave_call_signing_key
  cases env.retrieveKey <;> rfl

/-- The read-threading account retrieval leaves the environment unchanged and
returns the same value as the plain one. -/
theorem get_enclave_account_rw_eq (env : Env) :
    get_enclave_account_rw env = (get_enclave_account env, env) := by
  unfold get_enclave_account_rw get_enclave_account
  rw [get_enclave_call_signing_key_rw_eq]
  cases get_enclave_call_signing_key env <;> rfl

/-- The read-threading nonce read leaves the environment unchanged and returns
the same value as the plain one. -/
theorem get_enclave_account_nonce_rw_eq (env : Env) (shard : Nat) :
    get_enclave_account_nonce_rw env shard = (get_enclave_account_nonce env shard, env) := by
  cases hacc : get_enclave_account env <;>
    cases hobs : env.observeState shard <;>
      simp [get_enclave_account_nonce_rw, get_enclave_account_nonce, observe_state_rw,
        get_enclave_account_rw_eq, hacc, hobs]

/-- C6: `sign_call_with_self` mutates nothing: in the read-threading model,
which makes the collaborator environment after every collaborator call
observable, the environment after the operation equals the environment before
it, on the success path and on every failure path alike, and the returned
value is exactly that of the plain model. -/
theorem C6_sign_call_with_self_no_mutation (env : Env) (trusted_call shard : Nat) :
    (sign_call_with_self_rw env trusted_call shard).2 = env ∧
    (sign_call_with_self_rw env trusted_call shard).1 =
      sign_call_with_self env trusted_call shard := by
  have hrw : sign_call_with_self_rw env trusted_call shard =
      (sign_call_with_self env trusted_call shard, env) := by
    cases hmr : env.mrenclaveOfSelf <;>
      cases hacc : get_enclave_account env <;>
        cases hkey : get_enclave_call_signing_key env <;>
          cases hnon : get_enclave_account_nonce env shard <;>
            (simp [sign_call_with_self_rw, sign_call_with_self, get_mrenclave_of_self_rw,
              get_pending_trusted_calls_for_rw, get_enclave_account_rw_eq,
              get_enclave_call_signing_key_rw_eq, get_enclave_account_nonce_rw_eq,
              hmr, hacc, hkey, hnon];
              try (split <;> rfl))
  rw [hrw]
  exact ⟨rfl, rfl⟩

/-- C7: with the identity transformation, `propose_state_update` stores back
the unchanged state, returns it as the post-execution state, and returns
exactly one success record per input call, keyed by the call's content hash,
with an empty side-effect log. -/
theorem C7_propose_state_update_identity (stored_state : Nat) (trusted_calls : List Nat)
    (header shard max_exec_duration : Nat) :
    StfExecutorMock.propose_state_update stored_state trusted_calls header shard
        max_exec_duration id =
      (Except.ok
        { executedOperations := trusted_calls.map fun c =>
            ExecutedOperation.success (top_hash c) (TrustedOperationOrHash.from_top c) [],
          stateHashBeforeExecution := h256Default,
          stateAfterExecution := stored_state },
        stored_state) ∧
    (trusted_calls.map fun c =>
      ExecutedOperation.success (top_hash c) (TrustedOperationOrHash.from_top c) []).length =
      trusted_calls.length :=
  ⟨rfl, List.length_map trusted_calls _⟩

/-- C8: for every stored state and transformation `f`, `propose_state_update`
replaces the stored state with `f` of it, returns that same value as the
post-execution state, and an immediately following `get_state` on the new
stored state returns it as well. -/
theorem C8_propose_state_update_applies_transformation (stored_state : Nat)
    (trusted_calls : List Nat) (header shard max_exec_duration : Nat) (f : Nat → Nat) :
    (StfExecutorMock.propose_state_update stored_state trusted_calls header shard
        max_exec_duration f).2 = f stored_state ∧
    (∃ r, (StfExecutorMock.propose_state_update stored_state trusted_calls header shard
        max_exec_duration f).1 = Except.ok r ∧ r.stateAfterExecution = f stored_state) ∧
    StfExecutorMock.get_state
      (StfExecutorMock.propose_state_update stored_state trusted_calls header shard
        max_exec_duration f).2 = f stored_state :=
  ⟨rfl, ⟨_, rfl, rfl⟩, rfl⟩

/-- C9: the mock `propose_state_update` is infallible: for every batch, header,
shard, max duration and transformation it returns `Ok`, with the placeholder
default pre-execution state hash and one record per input call, every record a
success regardless of the call's content. -/
theorem C9_propose_state_update_infallible (stored_state : Nat) (trusted_calls : List Nat)
    (header shard max_exec_duration : Nat) (f : Nat → Nat) :
    ∃ r, (StfExecutorMock.propose_state_update stored_state trusted_calls header shard
        max_exec_duration f).1 = Except.ok r ∧
      r.stateHashBeforeExecution = h256Default ∧
      r.executedOperations.length = trusted_calls.length ∧
      ∀ op ∈ r.executedOperations, op.isSuccess = true := by
  refine ⟨_, rfl, rfl, List.length_map trusted_calls _, ?_⟩
  intro op hop
  rw [List.mem_map] at hop
  obtain ⟨c, _, hc⟩ := hop
  rw [← hc]
  rfl

/-- C10: the enclave-signer mock signs every call with the constant nonce 1,
its output is fully determined by the call, the shard and the stored
measurement (it consults no state and no pool), its key comes from the fixed
hardcoded test seed, and its account is the same across all instances. -/
theorem C10_mock_signer_constant_nonce (mr_enclave trusted_call shard mr_other : Nat) :
    (StfEnclaveSignerMock.new mr_enclave).sign_call_with_self trusted_call shard =
      Except.ok
        { call := trusted_call, nonce := 1, mrenclave := mr_enclave, shard := shard,
          signerPublic := (ed25519PairFromSeed testSeedBytes).public } ∧
    (StfEnclaveSignerMock.new mr_enclave).get_enclave_account =
      Except.ok (ed25519PairFromSeed testSeedBytes).public ∧
    (StfEnclaveSignerMock.new mr_enclave).get_enclave_account =
      (StfEnclaveSignerMock.new mr_other).get_enclave_account :=
  ⟨rfl, rfl, rfl⟩

end StfExecutor
